import Mathlib

/-!
Shallow embedding of the gocog COG/TIFF decoder (package gocog, files
`crs.go` and `reader.go`).  The authoritative public pipeline is the
revision of `crs.go` defining `newDecoder`, `parseIFD`, `readIFD`,
`colorModel`, `decode`, `DecodeLevelSubImage`, `DecodeLevel`, `Decode`,
`DecodeConfigLevel` (crs.go lines 595-1106), plus the `GeoCode.extract` /
`parseGeoKeyDirectory` GeoKey interpreter (crs.go lines 1-98).

Files are modelled as `List Nat` of bytes.  Go run-time panics (slice
index out of range, division by zero) are modelled by the `Fail.panic`
outcome; Go `error` returns by `Fail.err`.  The compression codecs
(zlib deflate and PackBits) are out-of-scope collaborators in the
repository design; they enter the embedding as function parameters with
the collaborator contract (bytes of the stored tile in, decoded bytes or
an error out).
-/

set_option maxRecDepth 100000

deriving instance DecidableEq for Except

namespace Gocog

/-- Byte order selected from the TIFF header ("II" little endian or
"MM" big endian). -/
inductive ByteOrder where
  | le : ByteOrder
  | be : ByteOrder
deriving DecidableEq, Repr

/-- The two Go error kinds of the package (`FormatError`,
`UnsupportedError`) plus `generic` for plain `fmt.Errorf` / io errors. -/
inductive Err where
  | format (s : String) : Err
  | unsupported (s : String) : Err
  | generic (s : String) : Err
deriving DecidableEq, Repr

/-- Outcome channel of a Go call: a run-time panic (index out of range,
division by zero) or a returned `error`. -/
inductive Fail where
  | panic : Fail
  | err (e : Err) : Fail
deriving DecidableEq, Repr

/-- var errNoPixels = FormatError("not enough pixel data") -/
def errNoPixels : Err := .format "not enough pixel data"

/-- Read `n` bytes at offset `off`; `none` models a failing
`io.ReaderAt.ReadAt` (not enough data). -/
def readAt (f : List Nat) (off n : Nat) : Option (List Nat) :=
  if off + n ≤ f.length then some ((f.drop off).take n) else none

/-- Read `n` bytes at `off`, zero-filling past the end: models a Go
`ReadAt` whose error result is ignored by the caller (the buffer stays
partially zeroed). -/
def readAtPad (f : List Nat) (off n : Nat) : List Nat :=
  (List.range n).map fun k => f.getD (off + k) 0

/-- The section of the file seen through
`io.NewSectionReader(ra, off, n)` (at most `n` bytes, short at EOF). -/
def section' (f : List Nat) (off n : Nat) : List Nat :=
  (f.drop off).take n

/-- binary.ByteOrder.Uint16 on two bytes of a buffer. -/
def u16At (bo : ByteOrder) (b : List Nat) (i : Nat) : Nat :=
  match bo with
  | .le => b.getD i 0 + 256 * b.getD (i + 1) 0
  | .be => 256 * b.getD i 0 + b.getD (i + 1) 0

/-- binary.ByteOrder.Uint32 on four bytes of a buffer. -/
def u32At (bo : ByteOrder) (b : List Nat) (i : Nat) : Nat :=
  match bo with
  | .le => b.getD i 0 + 256 * b.getD (i + 1) 0 + 65536 * b.getD (i + 2) 0
      + 16777216 * b.getD (i + 3) 0
  | .be => 16777216 * b.getD i 0 + 65536 * b.getD (i + 1) 0
      + 256 * b.getD (i + 2) 0 + b.getD (i + 3) 0

/-- uint32 wrap-around for arithmetic done at 32 bits in the source. -/
def u32wrap (n : Nat) : Nat := n % 4294967296

/-! Tag constants, from the `const` block of the source
(`cNewSubfileType = 254`, ... , `cSampleFormat = 339`). -/

def cNewSubfileType : Nat := 254
def cImageWidth : Nat := 256
def cImageLength : Nat := 257
def cBitsPerSample : Nat := 258
def cCompression : Nat := 259
def cPhotometricInterpr : Nat := 262
def cSamplesPerPixel : Nat := 277
def cTileWidth : Nat := 322
def cTileLength : Nat := 323
def cTileOffsets : Nat := 324
def cTileByteCounts : Nat := 325
def cSampleFormat : Nat := 339

/-- Modelled from the spec: TIFF datatype codes (the consts file of the
repository is not under src/).  BYTE(1), ASCII(2), SHORT(3), LONG(4),
DOUBLE(12). -/
def dtShort : Nat := 3
def dtLong : Nat := 4

/-- Modelled from the spec: element sizes per datatype code
(BYTE(1)=1, ASCII(2)=1, SHORT(3)=2, LONG(4)=4, DOUBLE(12)=8). -/
def lengths (dt : Nat) : Nat :=
  if dt = 1 then 1 else if dt = 2 then 1 else if dt = 3 then 2
  else if dt = 4 then 4 else if dt = 12 then 8 else 0

/-- ifdLen: each IFD entry is 12 bytes. -/
def ifdLen : Nat := 12

/-- Modelled from the spec: the 4 header magic bytes, "II"+42
little-endian and "MM"+42 big-endian. -/
def leHeader : List Nat := [73, 73, 42, 0]
def beHeader : List Nat := [77, 77, 0, 42]

/-- Modelled from the spec: photometric interpretation 1 is BlackIsZero,
sample format 1 is unsigned int, 2 is signed int (consts file missing
from src/). -/
def pBlackIsZero : Nat := 1
def uintSample : Nat := 1
def sintSample : Nat := 2

/-- Per-level image description accumulated by `parseIFD`
(struct ImgDesc of crs.go lines 644-657; Go zero values as defaults). -/
structure ImgDesc where
  NewSubfileType : Nat := 0
  ImageWidth : Nat := 0
  ImageHeight : Nat := 0
  TileWidth : Nat := 0
  TileHeight : Nat := 0
  PhotometricInterpr : Nat := 0
  Compression : Nat := 0
  SamplesPerPixel : Nat := 0
  BitsPerSample : List Nat := []
  SampleFormat : List Nat := []
  TileOffsets : List Nat := []
  TileByteCounts : List Nat := []
deriving DecidableEq, Repr

/-- One entry of the IFD entry loop of `parseIFD` (crs.go 698-813).
`k` is the entry index, `ifd` the raw 12*numItems entry bytes, `file`
the whole stream (for indirect values).  Unknown tags are skipped. -/
def parseIFDEntry (bo : ByteOrder) (file ifd : List Nat) (k : Nat)
    (d : ImgDesc) : Except Fail ImgDesc :=
  let i := ifdLen * k
  let tag := u16At bo ifd i
  let datatype := u16At bo ifd (i + 2)
  let count := u32At bo ifd (i + 4)
  if tag = cNewSubfileType then
    if datatype ≠ dtLong ∨ count ≠ 1 then
      .error (.err (.format "1unexpected value found on IFD"))
    else .ok { d with NewSubfileType := u32At bo ifd (i + 8) }
  else if tag = cImageWidth then
    if count ≠ 1 then .error (.err (.format "2unexpected value found on IFD"))
    else if datatype = dtShort then .ok { d with ImageWidth := u16At bo ifd (i + 8) }
    else if datatype = dtLong then .ok { d with ImageWidth := u32At bo ifd (i + 8) }
    else .error (.err (.format "3unexpected value found on IFD"))
  else if tag = cImageLength then
    if count ≠ 1 then .error (.err (.format "4unexpected value found on IFD"))
    else if datatype = dtShort then .ok { d with ImageHeight := u16At bo ifd (i + 8) }
    else if datatype = dtLong then .ok { d with ImageHeight := u32At bo ifd (i + 8) }
    else .error (.err (.format "5unexpected value found on IFD"))
  else if tag = cBitsPerSample then
    if datatype ≠ dtShort then .error (.err (.format "6unexpected value found on IFD"))
    -- The debug fmt.Println calls slice ifd[i+10:i+16]; when this is the
    -- last entry of the IFD that slicing exceeds the buffer capacity and
    -- panics.
    else if ifd.length < i + 16 then .error .panic
    else .ok { d with BitsPerSample := [u16At bo ifd (i + 8)] }
  else if tag = cCompression then
    if datatype ≠ dtShort ∨ count ≠ 1 then
      .error (.err (.format "7unexpected value found on IFD"))
    else .ok { d with Compression := u16At bo ifd (i + 8) }
  else if tag = cPhotometricInterpr then
    if datatype ≠ dtShort ∨ count ≠ 1 then
      .error (.err (.format "8unexpected value found on IFD"))
    else .ok { d with PhotometricInterpr := u16At bo ifd (i + 8) }
  else if tag = cSamplesPerPixel then
    if datatype ≠ dtShort ∨ count ≠ 1 then
      .error (.err (.format "9unexpected value found on IFD"))
    else .ok { d with SamplesPerPixel := u16At bo ifd (i + 8) }
  else if tag = cSampleFormat then
    if datatype ≠ dtShort then .error (.err (.format "10unexpected value found on IFD"))
    else .ok { d with SampleFormat := [u16At bo ifd (i + 8)] }
  else if tag = cTileWidth then
    if count ≠ 1 then .error (.err (.format "11unexpected value found on IFD"))
    else if datatype = dtShort then .ok { d with TileWidth := u16At bo ifd (i + 8) }
    else if datatype = dtLong then .ok { d with TileWidth := u32At bo ifd (i + 8) }
    else .error (.err (.format "12unexpected value found on IFD"))
  else if tag = cTileLength then
    if count ≠ 1 then .error (.err (.format "13unexpected value found on IFD"))
    else if datatype = dtShort then .ok { d with TileHeight := u16At bo ifd (i + 8) }
    else if datatype = dtLong then .ok { d with TileHeight := u32At bo ifd (i + 8) }
    else .error (.err (.format "14unexpected value found on IFD"))
  else if tag = cTileOffsets ∨ tag = cTileByteCounts then
    if datatype ≠ dtLong then .error (.err (.format "15unexpected value found on IFD"))
    else
      let datalen := lengths datatype * count
      -- The ReadAt error of the indirect case is ignored by the source;
      -- bytes beyond the stream stay zero.
      let raw := if 4 < datalen
        then readAtPad file (u32At bo ifd (i + 8)) datalen
        else (ifd.drop (i + 8)).take datalen
      let data := (List.range count).map fun m => u32At bo raw (4 * m)
      if tag = cTileOffsets then .ok { d with TileOffsets := data }
      else .ok { d with TileByteCounts := data }
  else .ok d

/-- The entry loop of `parseIFD`, entry indices `ks` in order. -/
def parseIFDEntries (bo : ByteOrder) (file ifd : List Nat) :
    List Nat → ImgDesc → Except Fail ImgDesc
  | [], d => .ok d
  | k :: ks, d =>
    match parseIFDEntry bo file ifd k d with
    | .error e => .error e
    | .ok d' => parseIFDEntries bo file ifd ks d'

/-- `parseIFD` (crs.go 685-823): reads the entry count, the raw entries,
folds `parseIFDEntry` over them, and returns the accumulated `ImgDesc`
together with the next IFD offset. -/
def parseIFD (bo : ByteOrder) (file : List Nat) (ifdOffset : Nat) :
    Except Fail (ImgDesc × Nat) :=
  match readAt file ifdOffset 2 with
  | none => .error (.err (.format "error reading IFD"))
  | some p =>
    let numItems := u16At bo p 0
    match readAt file (ifdOffset + 2) (ifdLen * numItems) with
    | none => .error (.err (.format "error reading IFD"))
    | some ifd =>
      match parseIFDEntries bo file ifd (List.range numItems) {} with
      | .error e => .error e
      | .ok d =>
        match readAt file (ifdOffset + 2 + 12 * numItems) 4 with
        | none => .error (.err (.format "error reading IFD"))
        | some q => .ok (d, u32At bo q 0)

/-- The `for ifdOffset != 0` loop of `readIFD` (crs.go 825-841), with
fuel for the unbounded chain walk. -/
def readIFDLoop (bo : ByteOrder) (file : List Nat) :
    Nat → Nat → List ImgDesc → Except Fail (List ImgDesc)
  | 0, off, acc =>
    if off = 0 then .ok acc else .error (.err (.generic "IFD chain too long"))
  | fuel + 1, off, acc =>
    if off = 0 then .ok acc
    else
      match parseIFD bo file off with
      | .error e => .error e
      | .ok (d, next) => readIFDLoop bo file fuel next (acc ++ [d])

/-- Header decoding of `newDecoder` (crs.go 666-680): 8 header bytes,
byte order from the first 4. -/
def byteOrderOf (p : List Nat) : Option ByteOrder :=
  if p.take 4 = leHeader then some .le
  else if p.take 4 = beHeader then some .be
  else none

/-- `newDecoder` followed by `readIFD`: the parsing half shared by all
public operations.  Returns the ordered list of level descriptors. -/
def goParse (file : List Nat) (fuel : Nat) : Except Fail (List ImgDesc) :=
  match readAt file 0 8 with
  | none => .error (.err (.format "malformed header"))
  | some p =>
    match byteOrderOf p with
    | none => .error (.err (.format "malformed header"))
    | some bo =>
      match readAt file 4 4 with
      | none => .error (.err (.generic "read error"))
      | some q => readIFDLoop bo file fuel (u32At bo q 0) []

/-! Destination image buffers.  The four scimage grayscale variants
(GrayU8/GrayU16/GrayS8/GrayS16) are caller-side collaborators; per the
design their setters clip writes to the image rectangle.  Samples are
stored as their raw bit patterns (a signed sample keeps the pattern the
byte(s) produced). -/

inductive PixKind where
  | u8 : PixKind
  | u16 : PixKind
  | s8 : PixKind
  | s16 : PixKind
deriving DecidableEq, Repr

/-- Bytes consumed per sample by `decode` for each destination variant. -/
def bytesPerSample : PixKind → Nat
  | .u8 => 1
  | .s8 => 1
  | .u16 => 2
  | .s16 => 2

/-- Go image.Rectangle (Min inclusive, Max exclusive). -/
structure GoRect where
  minX : Int
  minY : Int
  maxX : Int
  maxY : Int
deriving DecidableEq, Repr

/-- image.Rect(x0,y0,x1,y1): swaps coordinates so Min ≤ Max. -/
def mkGoRect (x0 y0 x1 y1 : Int) : GoRect :=
  ⟨min x0 x1, min y0 y1, max x0 x1, max y0 y1⟩

/-- Rectangle.Empty(). -/
def rectEmpty (r : GoRect) : Bool :=
  r.maxX ≤ r.minX ∨ r.maxY ≤ r.minY

/-- Rectangle.Intersect: componentwise clip, the zero rectangle when
empty. -/
def rectIntersect (r s : GoRect) : GoRect :=
  let t : GoRect := ⟨max r.minX s.minX, max r.minY s.minY,
    min r.maxX s.maxX, min r.maxY s.maxY⟩
  if rectEmpty t then ⟨0, 0, 0, 0⟩ else t

/-- A grayscale image buffer: variant, bounds, value range,
row-major sample data. -/
structure GrayImg where
  kind : PixKind
  minX : Int
  minY : Int
  maxX : Int
  maxY : Int
  lo : Int
  hi : Int
  data : List Nat
deriving DecidableEq, Repr

/-- scimage.NewGray* over a rectangle: zero-initialised buffer. -/
def newGray (k : PixKind) (r : GoRect) (lo hi : Int) : GrayImg :=
  ⟨k, r.minX, r.minY, r.maxX, r.maxY, lo, hi,
    List.replicate ((r.maxX - r.minX).toNat * (r.maxY - r.minY).toNat) 0⟩

/-- The collaborator setter SetGray*: stores the sample when (x,y) is
inside the image rectangle, otherwise a no-op. -/
def setPix (img : GrayImg) (x y : Int) (v : Nat) : GrayImg :=
  if img.minX ≤ x ∧ x < img.maxX ∧ img.minY ≤ y ∧ y < img.maxY then
    let idx := ((y - img.minY) * (img.maxX - img.minX) + (x - img.minX)).toNat
    { img with data := img.data.set idx v }
  else img

/-- Sample accessor for stating pixel properties. -/
def getPix (img : GrayImg) (x y : Int) : Nat :=
  if img.minX ≤ x ∧ x < img.maxX ∧ img.minY ≤ y ∧ y < img.maxY then
    img.data.getD (((y - img.minY) * (img.maxX - img.minX) + (x - img.minX)).toNat) 0
  else 0

/-- The integers `a, a+1, ..., b` (empty when `b < a`): a Go
`for v := a; v <= b; v++` index sequence. -/
def intRange (a b : Int) : List Int :=
  (List.range (b + 1 - a).toNat).map fun k => a + k

/-- The integers `a, ..., b-1`: a Go `for v := a; v < b; v++` index
sequence. -/
def intRangeLt (a b : Int) : List Int :=
  (List.range (b - a).toNat).map fun k => a + k

/-- The sample value `decode` builds at buffer offset `off`: one raw
byte, or `buf[off]<<8 | buf[off+1]` for the 16-bit variants (the source
composes the two bytes big-endian regardless of the file byte order). -/
def sampleAt (bps : Nat) (buf : List Nat) (off : Nat) : Nat :=
  if bps = 2 then 256 * buf.getD off 0 + buf.getD (off + 1) 0
  else buf.getD off 0

/-- The inner `for x` loop of `decode` (crs.go 885-893 and the three
analogous arms): consume one sample per x, failing with errNoPixels
when the buffer runs out. -/
def decodeRowPix (bps : Nat) (buf : List Nat) (y : Int) :
    List Int → Nat → GrayImg → Except Err (Nat × GrayImg)
  | [], off, img => .ok (off, img)
  | x :: xs, off, img =>
    if buf.length < off + bps then .error errNoPixels
    else decodeRowPix bps buf y xs (off + bps)
        (setPix img x y (sampleAt bps buf off))

/-- The outer `for y` loop of `decode`: one row of samples, then the
end-of-row skip `if rMaxX == img.Bounds().Max.X { off += xmax - Max.X }`
(scaled by the sample width). -/
def decodeRows (bps : Nat) (buf : List Nat) (xmin xmax rMaxX dstMaxX : Int) :
    List Int → Nat → GrayImg → Except Err GrayImg
  | [], _, img => .ok img
  | y :: ys, off, img =>
    match decodeRowPix bps buf y (intRangeLt xmin rMaxX) off img with
    | .error e => .error e
    | .ok (off1, img1) =>
      let off2 := if rMaxX = dstMaxX
        then off1 + bps * (xmax - dstMaxX).toNat else off1
      decodeRows bps buf xmin xmax rMaxX dstMaxX ys off2 img1

/-- `decode` (crs.go 872-945): writes one decompressed tile `buf` into
`dst`, walking the tile rows and clipping against the image bounds.
The Go type switch over the four scimage variants is the match on
`dst.kind`; the four arms differ only in sample width, folded into
`bytesPerSample` / `sampleAt`. -/
def decode (cfg : ImgDesc) (buf : List Nat) (dst : GrayImg)
    (xmin ymin xmax ymax : Int) : Except Err GrayImg :=
  let rMaxX := min xmax dst.maxX
  let rMaxY := min ymax dst.maxY
  if cfg.SamplesPerPixel ≠ 1 then .error (.format "image data type not implemented")
  else decodeRows (bytesPerSample dst.kind) buf xmin xmax rMaxX dst.maxX
    (intRangeLt ymin rMaxY) 0 dst

/-- `colorModel` (crs.go 843-868) as (variant, Min, Max); `none` is the
nil model.  Indexing `cfg.SampleFormat[0]` / `cfg.BitsPerSample[0]` on an
empty slice panics. -/
def colorModel (cfg : ImgDesc) : Except Fail (Option (PixKind × Int × Int)) :=
  if cfg.PhotometricInterpr = pBlackIsZero then
    if cfg.SampleFormat = [] then .error .panic
    else
      let sf := cfg.SampleFormat.headD 0
      if sf = uintSample then
        if cfg.BitsPerSample = [] then .error .panic
        else if cfg.BitsPerSample.headD 0 = 8 then .ok (some (.u8, 0, 255))
        else if cfg.BitsPerSample.headD 0 = 16 then .ok (some (.u16, 0, 65535))
        else .ok none
      else if sf = sintSample then
        if cfg.BitsPerSample = [] then .error .panic
        else if cfg.BitsPerSample.headD 0 = 8 then .ok (some (.s8, -128, 127))
        else if cfg.BitsPerSample.headD 0 = 16 then .ok (some (.s16, -32768, 32767))
        else .ok none
      else .ok none
  else .ok none

/-! The tile pipeline of `DecodeLevelSubImage` (crs.go 947-1060). -/

/-- A compression collaborator: decoded bytes (or an error) from the
stored section of the file. -/
abbrev Codec := List Nat → Except Err (List Nat)

/-- blocksAcross (crs.go 967-969): `(W + TW - 1) / TW` in uint32
arithmetic when TileWidth ≠ 0, else 1. -/
def blocksAcrossOf (cfg : ImgDesc) : Nat :=
  if cfg.TileWidth ≠ 0
  then u32wrap (cfg.ImageWidth + cfg.TileWidth - 1) / cfg.TileWidth
  else 1

/-- blocksDown (crs.go 970-972): updated only when both tile dimensions
are non-zero. -/
def blocksDownOf (cfg : ImgDesc) : Nat :=
  if cfg.TileWidth ≠ 0 ∧ cfg.TileHeight ≠ 0
  then u32wrap (cfg.ImageHeight + cfg.TileHeight - 1) / cfg.TileHeight
  else 1

/-- The per-tile fetch + decompress dispatch on `cfg.Compression`
(crs.go 1019-1043).  Cases in source order: `cNone, 0` reads the raw
bytes; `cDeflate (8), cDeflateOld (32946)` and `cPackBits (32773)` hand
the stored section to the collaborator codec (the deflate and PackBits
decompressors are outside this repository's core); anything else is an
UnsupportedError.  The compression codes are modelled from the spec's
codec table (the consts file is not under src/). -/
def fetchTileBuf (file : List Nat) (zlibDec packBitsDec : Codec)
    (comp offset n : Nat) : Except Err (List Nat) :=
  if comp = 1 ∨ comp = 0 then
    match readAt file offset n with
    | some b => .ok b
    | none => .error (.generic "unexpected EOF")
  else if comp = 8 ∨ comp = 32946 then zlibDec (section' file offset n)
  else if comp = 32773 then packBitsDec (section' file offset n)
  else .error (.unsupported ("compression value " ++ toString comp))

/-- The tile index pairs visited by the two `for` loops of
`DecodeLevelSubImage` (crs.go 1007 and 1012), outer `i` then inner `j`.
Both upper bounds are inclusive and BOTH divisors are `cfg.TileWidth`
(the source uses TileWidth for the y axis as well). -/
def tilePairs (r : GoRect) (tw : Int) : List (Int × Int) :=
  (intRange (r.minX.tdiv tw) (r.maxX.tdiv tw)).flatMap fun i =>
    (intRange (r.minY.tdiv tw) (r.maxY.tdiv tw)).map fun j => (i, j)

/-- The body of one tile iteration (crs.go 1008-1056): block size,
tile-table indexing (an out-of-range index panics), fetch, decode. -/
def tileStep (file : List Nat) (zlibDec packBitsDec : Codec) (cfg : ImgDesc)
    (blockPadding : Bool) (blocksAcross blocksDown : Nat)
    (ij : Int × Int) (img : GrayImg) : Except Fail GrayImg :=
  let i := ij.1
  let j := ij.2
  let blkW : Int := if ¬blockPadding ∧ i = (blocksAcross : Int) - 1
      ∧ cfg.ImageWidth % cfg.TileWidth ≠ 0
    then (cfg.ImageWidth % cfg.TileWidth : Nat) else (cfg.TileWidth : Nat)
  let blkH : Int := if ¬blockPadding ∧ j = (blocksDown : Int) - 1
      ∧ cfg.ImageHeight % cfg.TileHeight ≠ 0
    then (cfg.ImageHeight % cfg.TileHeight : Nat) else (cfg.TileHeight : Nat)
  let idx := j * (blocksAcross : Int) + i
  if idx < 0 ∨ (cfg.TileOffsets.length : Int) ≤ idx then .error .panic
  else if (cfg.TileByteCounts.length : Int) ≤ idx then .error .panic
  else
    let offset := cfg.TileOffsets.getD idx.toNat 0
    let n := cfg.TileByteCounts.getD idx.toNat 0
    match fetchTileBuf file zlibDec packBitsDec cfg.Compression offset n with
    | .error e => .error (.err e)
    | .ok buf =>
      let xmin := i * (cfg.TileWidth : Int)
      let ymin := j * (cfg.TileHeight : Int)
      match decode cfg buf img xmin ymin (xmin + blkW) (ymin + blkH) with
      | .error e => .error (.err e)
      | .ok img' => .ok img'

/-- The full tile loop, in iteration order. -/
def tilesRun (file : List Nat) (zlibDec packBitsDec : Codec) (cfg : ImgDesc)
    (blockPadding : Bool) (blocksAcross blocksDown : Nat) :
    List (Int × Int) → GrayImg → Except Fail GrayImg
  | [], img => .ok img
  | p :: ps, img =>
    match tileStep file zlibDec packBitsDec cfg blockPadding blocksAcross
        blocksDown p img with
    | .error e => .error e
    | .ok img' =>
      tilesRun file zlibDec packBitsDec cfg blockPadding blocksAcross
        blocksDown ps img'

/-- Go fmt "%v" rendering of a uint16 slice, for the BitsPerSample
UnsupportedError message. -/
def goFmtU16s (l : List Nat) : String :=
  "[" ++ String.intercalate " " (l.map toString) ++ "]"

/-- `DecodeLevelSubImage` after parsing and level lookup
(crs.go 959-1059): dimension check, tile-count check, BitsPerSample
switch (indexing `[0]` on an empty slice panics), rectangle
intersection (a non-intersecting rectangle is a plain fmt.Errorf),
destination allocation from the color model, then the tile loop.  A
zero TileWidth would divide by zero in the loop bounds: panic. -/
def decodeWithCfg (file : List Nat) (zlibDec packBitsDec : Codec)
    (cfg : ImgDesc) (rect : GoRect) : Except Fail GrayImg :=
  if cfg.ImageWidth = 0 ∨ cfg.ImageHeight = 0 then
    .error (.err (.format "unexpected image dimensions"))
  else if cfg.TileOffsets.length < blocksAcrossOf cfg * blocksDownOf cfg
      ∨ cfg.TileByteCounts.length < blocksAcrossOf cfg * blocksDownOf cfg then
    .error (.err (.format "inconsistent header"))
  else if cfg.BitsPerSample = [] then .error .panic
  else if cfg.BitsPerSample.headD 0 = 0 then
    .error (.err (.format "BitsPerSample must not be 0"))
  else if cfg.BitsPerSample.headD 0 = 8 ∨ cfg.BitsPerSample.headD 0 = 16 then
    let imgRect := rectIntersect
      (mkGoRect 0 0 (cfg.ImageWidth : Int) (cfg.ImageHeight : Int)) rect
    if rectEmpty imgRect then
      .error (.err (.generic "The rectangle provided does not intersect the image"))
    else
      match colorModel cfg with
      | .error f => .error f
      | .ok none => .error (.err (.format "image data type not implemented"))
      | .ok (some (k, lo, hi)) =>
        let img0 := newGray k imgRect lo hi
        if cfg.TileWidth = 0 then .error .panic
        else tilesRun file zlibDec packBitsDec cfg (cfg.TileWidth ≠ 0)
          (blocksAcrossOf cfg) (blocksDownOf cfg)
          (tilePairs imgRect (cfg.TileWidth : Int)) img0
  else
    .error (.err (.unsupported ("BitsPerSample of " ++ goFmtU16s cfg.BitsPerSample)))

/-- `cfg := d.dsc[level]`: Go slice indexing with an int index; out of
range panics. -/
def getLevel (dsc : List ImgDesc) (level : Int) : Option ImgDesc :=
  if h : 0 ≤ level ∧ level.toNat < dsc.length
  then some (dsc.get ⟨level.toNat, h.2⟩) else none

/-- `DecodeLevelSubImage(r, level, rect)` (crs.go 947-1060). -/
def goDecodeLevelSubImage (zlibDec packBitsDec : Codec) (file : List Nat)
    (fuel : Nat) (level : Int) (rect : GoRect) : Except Fail GrayImg :=
  match goParse file fuel with
  | .error e => .error e
  | .ok dsc =>
    match getLevel dsc level with
    | none => .error .panic
    | some cfg => decodeWithCfg file zlibDec packBitsDec cfg rect

/-- `DecodeLevel(r, level)` (crs.go 1062-1076): parses, looks up the
level (panicking when out of range), and re-runs the sub-image decode
on the full image rectangle. -/
def goDecodeLevel (zlibDec packBitsDec : Codec) (file : List Nat)
    (fuel : Nat) (level : Int) : Except Fail GrayImg :=
  match goParse file fuel with
  | .error e => .error e
  | .ok dsc =>
    match getLevel dsc level with
    | none => .error .panic
    | some cfg =>
      goDecodeLevelSubImage zlibDec packBitsDec file fuel level
        (mkGoRect 0 0 (cfg.ImageWidth : Int) (cfg.ImageHeight : Int))

/-- `Decode(r)` = DecodeLevel(r, 0) (crs.go 1078-1080). -/
def goDecode (zlibDec packBitsDec : Codec) (file : List Nat) (fuel : Nat) :
    Except Fail GrayImg :=
  goDecodeLevel zlibDec packBitsDec file fuel 0

/-- `DecodeConfigLevel(r, level)` (crs.go 1082-1095): color model and
dimensions, with the same unchecked level lookup. -/
def goDecodeConfigLevel (file : List Nat) (fuel : Nat) (level : Int) :
    Except Fail (Option (PixKind × Int × Int) × Nat × Nat) :=
  match goParse file fuel with
  | .error e => .error e
  | .ok dsc =>
    match getLevel dsc level with
    | none => .error .panic
    | some cfg =>
      match colorModel cfg with
      | .error f => .error f
      | .ok m => .ok (m, cfg.ImageWidth, cfg.ImageHeight)

/-- Pixel observation on a pipeline result. -/
def pixOf (r : Except Fail GrayImg) (x y : Int) : Option Nat :=
  match r with
  | .ok img => some (getPix img x y)
  | _ => none

/-! GeoKey sub-directory interpreter (crs.go 1-98). -/

/-- Modelled from the spec: the GeoDoubleParams (34736) and
GeoAsciiParams (34737) tag ids referenced by `extract` (their const
declarations are not under src/). -/
def GeoDoubleParamsTag : Nat := 34736
def GeoAsciiParamsTag : Nat := 34737

/-- struct GeoCode (crs.go 5-24); Go zero values as defaults. -/
structure GeoCode where
  ModelType : Nat := 0
  RasterType : Nat := 0
  Citation : String := ""
  GeographicType : Nat := 0
  GeogCitation : String := ""
  GeogGeodeticDatum : Nat := 0
  GeogAngularUnits : Nat := 0
  GeogEllipsoid : Nat := 0
  GeogSemiMajorAxis : Float := 0
  GeogSemiMinorAxis : Float := 0
  GeogPrimeMeridianLong : Float := 0
  ProjCSTType : Nat := 0
  Proj : Nat := 0
  ProjCoordTrans : Nat := 0
  ProjLinearUnits : Nat := 0
  ProjFalseEasting : Float := 0
  ProjFalseNorthing : Float := 0
  ProjCenterLong : Float := 0

/-- struct KeyEntry (crs.go 26-28); all fields uint16. -/
structure KeyEntry where
  KeyID : Nat
  TIFFTagLocation : Nat
  Count : Nat
  ValueOffset : Nat
deriving DecidableEq, Repr

/-- Go string slicing aParams[lo:hi] by byte index. -/
def strSlice (s : String) (lo hi : Nat) : String :=
  String.mk ((s.toList.drop lo).take (hi - lo))

/-- dParams[vo] indexing: panics out of range. -/
def dIndex (d : List Float) (vo : Nat) : Option Float :=
  if h : vo < d.length then some (d.get ⟨vo, h⟩) else none

/-- `GeoCode.extract` (crs.go 30-90).  The Go method mutates the
receiver and returns an `error` that is `nil` on every path; `none`
models a panic (string slicing or dParams indexing out of range; the
uint16 sum `ValueOffset+Count` wraps).  The second component is the
returned error. -/
def extract (g : GeoCode) (k : KeyEntry) (dParams : List Float)
    (aParams : String) : Option (GeoCode × Option Err) :=
  if k.KeyID = 1024 then some ({ g with ModelType := k.ValueOffset }, none)
  else if k.KeyID = 1025 then some ({ g with RasterType := k.ValueOffset }, none)
  else if k.KeyID = 1026 then
    if k.TIFFTagLocation = GeoAsciiParamsTag then
      let hi := (k.ValueOffset + k.Count) % 65536
      if k.ValueOffset ≤ hi ∧ hi ≤ aParams.length then
        some ({ g with Citation := strSlice aParams k.ValueOffset hi }, none)
      else none
    else some (g, none)
  else if k.KeyID = 2048 then some ({ g with GeographicType := k.ValueOffset }, none)
  else if k.KeyID = 2049 then
    if k.TIFFTagLocation = GeoAsciiParamsTag then
      let hi := (k.ValueOffset + k.Count) % 65536
      if k.ValueOffset ≤ hi ∧ hi ≤ aParams.length then
        some ({ g with GeogCitation := strSlice aParams k.ValueOffset hi }, none)
      else none
    else some (g, none)
  else if k.KeyID = 2050 then some ({ g with GeogGeodeticDatum := k.ValueOffset }, none)
  else if k.KeyID = 2054 then some ({ g with GeogAngularUnits := k.ValueOffset }, none)
  else if k.KeyID = 2056 then some ({ g with GeogEllipsoid := k.ValueOffset }, none)
  else if k.KeyID = 2057 then
    if k.TIFFTagLocation = GeoDoubleParamsTag then
      match dIndex dParams k.ValueOffset with
      | some v => some ({ g with GeogSemiMajorAxis := v }, none)
      | none => none
    else some (g, none)
  else if k.KeyID = 2058 then
    if k.TIFFTagLocation = GeoDoubleParamsTag then
      match dIndex dParams k.ValueOffset with
      | some v => some ({ g with GeogSemiMinorAxis := v }, none)
      | none => none
    else some (g, none)
  else if k.KeyID = 2061 then
    if k.TIFFTagLocation = GeoDoubleParamsTag then
      match dIndex dParams k.ValueOffset with
      | some v => some ({ g with GeogPrimeMeridianLong := v }, none)
      | none => none
    else some (g, none)
  else if k.KeyID = 3072 then some ({ g with ProjCSTType := k.ValueOffset }, none)
  else if k.KeyID = 3074 then some ({ g with Proj := k.ValueOffset }, none)
  else if k.KeyID = 3075 then some ({ g with ProjCoordTrans := k.ValueOffset }, none)
  else if k.KeyID = 3076 then some ({ g with ProjLinearUnits := k.ValueOffset }, none)
  else if k.KeyID = 3082 then
    if k.TIFFTagLocation = GeoDoubleParamsTag then
      match dIndex dParams k.ValueOffset with
      | some v => some ({ g with ProjFalseEasting := v }, none)
      | none => none
    else some (g, none)
  else if k.KeyID = 3083 then
    if k.TIFFTagLocation = GeoDoubleParamsTag then
      match dIndex dParams k.ValueOffset with
      | some v => some ({ g with ProjFalseNorthing := v }, none)
      | none => none
    else some (g, none)
  else if k.KeyID = 3088 then
    if k.TIFFTagLocation = GeoDoubleParamsTag then
      match dIndex dParams k.ValueOffset with
      | some v => some ({ g with ProjCenterLong := v }, none)
      | none => none
    else some (g, none)
  else some (g, none)

/-- `parseGeoKeyDirectory` (crs.go 92-98): folds `extract` over the key
entries, ignoring the (always nil) errors; a panic propagates. -/
def parseGeoKeyDirectory (kEntries : List KeyEntry) (dParams : List Float)
    (aParams : String) : Option GeoCode :=
  kEntries.foldlM (fun g k => (extract g k dParams aParams).map Prod.fst) {}

/-- The raw-code store performed by `extract` for the enumerated GeoKeys
(every branch of the form `g.Field = k.ValueOffset`). -/
def storeEnum (g : GeoCode) (kid vo : Nat) : GeoCode :=
  if kid = 1024 then { g with ModelType := vo }
  else if kid = 1025 then { g with RasterType := vo }
  else if kid = 2048 then { g with GeographicType := vo }
  else if kid = 2050 then { g with GeogGeodeticDatum := vo }
  else if kid = 2054 then { g with GeogAngularUnits := vo }
  else if kid = 2056 then { g with GeogEllipsoid := vo }
  else if kid = 3072 then { g with ProjCSTType := vo }
  else if kid = 3074 then { g with Proj := vo }
  else if kid = 3075 then { g with ProjCoordTrans := vo }
  else if kid = 3076 then { g with ProjLinearUnits := vo }
  else g

/-! The horizontal predictor reversal of the repository
(reader.go 272-311, `decode`): present in the older decoder revision but
never invoked by the public `Decode`/`DecodeLevel`/`DecodeLevelSubImage`
pipeline of crs.go, whose `parseIFD` does not even record tag 317. -/

/-- One row of the 8-bit horizontal predictor loop (reader.go 295-307):
skip the first `n` bytes of the row, then add the previous sample to
each of the next `(xmax-xmin-1)*n` bytes (uint8 wrap-around). -/
def predRow8 (n : Nat) : Nat → Nat → List Nat → Except Err (Nat × List Nat)
  | 0, off, buf => .ok (off, buf)
  | steps + 1, off, buf =>
    if buf.length ≤ off then .error errNoPixels
    else
      let v := (buf.getD off 0 + buf.getD (off - n) 0) % 256
      predRow8 n steps (off + 1) (buf.set off v)

/-- The 8-bit arm of the horizontal predictor (reader.go case 8):
`n` bytes per pixel, rows `ymin ≤ y < ymax`, each row `off += n` then
the in-place running sum. -/
def horizPredictor8 (n : Nat) (ymin ymax xmin xmax : Int) (buf : List Nat) :
    Except Err (List Nat) :=
  go (intRangeLt ymin ymax) 0 buf
where
  go : List Int → Nat → List Nat → Except Err (List Nat)
    | [], _, b => .ok b
    | _ :: ys, off, b =>
      match predRow8 n (((xmax - xmin - 1) * (n : Int)).toNat) (off + n) b with
      | .error e => .error e
      | .ok (off', b') => go ys off' b'

/-! Concrete files used to evaluate the pipeline, built byte by byte. -/

def u16le (n : Nat) : List Nat := [n % 256, n / 256 % 256]
def u32le (n : Nat) : List Nat :=
  [n % 256, n / 256 % 256, n / 65536 % 256, n / 16777216 % 256]
def u16be (n : Nat) : List Nat := [n / 256 % 256, n % 256]
def u32be (n : Nat) : List Nat :=
  [n / 16777216 % 256, n / 65536 % 256, n / 256 % 256, n % 256]

/-- A 12-byte little-endian IFD entry; `v` is the 4 value bytes
(inline values are left-aligned). -/
def entLE (tag dt cnt : Nat) (v : List Nat) : List Nat :=
  u16le tag ++ u16le dt ++ u32le cnt ++ v

/-- A 12-byte big-endian IFD entry. -/
def entBE (tag dt cnt : Nat) (v : List Nat) : List Nat :=
  u16be tag ++ u16be dt ++ u32be cnt ++ v

/-- An inline SHORT value (left-aligned, zero-padded). -/
def shortLE (v : Nat) : List Nat := u16le v ++ [0, 0]
def shortBE (v : Nat) : List Nat := u16be v ++ [0, 0]

/-- A little-endian file: header, first IFD at offset 8, one IFD with
the given entries and a zero next-IFD pointer, then `tail` data. -/
def mkFileLE (entries : List (List Nat)) (tail : List Nat) : List Nat :=
  leHeader ++ u32le 8 ++ u16le entries.length ++ entries.flatten
    ++ u32le 0 ++ tail

/-- A big-endian file with the same layout. -/
def mkFileBE (entries : List (List Nat)) (tail : List Nat) : List Nat :=
  beHeader ++ u32be 8 ++ u16be entries.length ++ entries.flatten
    ++ u32be 0 ++ tail

/-- Trivial codecs for files whose compression is None: the deflate and
PackBits collaborators are never consulted. -/
def noCodec : Codec := fun _ => .error (.generic "codec not installed")

/-- The boundary-scenario file: 4x4 u8 BlackIsZero, TW=TH=4,
compression None, one tile of bytes 0..15 (tail placed at offset
8 + 2 + 11*12 + 4 = 146). -/
def c1file : List Nat :=
  mkFileLE
    [entLE cImageWidth dtShort 1 (shortLE 4),
     entLE cImageLength dtShort 1 (shortLE 4),
     entLE cBitsPerSample dtShort 1 (shortLE 8),
     entLE cCompression dtShort 1 (shortLE 1),
     entLE cPhotometricInterpr dtShort 1 (shortLE 1),
     entLE cSamplesPerPixel dtShort 1 (shortLE 1),
     entLE cTileWidth dtShort 1 (shortLE 4),
     entLE cTileLength dtShort 1 (shortLE 4),
     entLE cTileOffsets dtLong 1 (u32le 146),
     entLE cTileByteCounts dtLong 1 (u32le 16),
     entLE cSampleFormat dtShort 1 (shortLE 1)]
    (List.range 16)

/-- The ImgDesc that parsing `c1file` must produce. -/
def c1cfg : ImgDesc :=
  { ImageWidth := 4, ImageHeight := 4, TileWidth := 4, TileHeight := 4,
    PhotometricInterpr := 1, Compression := 1, SamplesPerPixel := 1,
    BitsPerSample := [8], SampleFormat := [1],
    TileOffsets := [146], TileByteCounts := [16] }

/-- A 5x5 u8 image with TW=4, TH=1 (2 x 5 = 10 tiles of one row each);
tile k holds bytes 10k+1 .. 10k+4.  Tile tables are indirect: offsets
array at 146, byte counts at 186, tile data at 226. -/
def c2file : List Nat :=
  mkFileLE
    [entLE cImageWidth dtShort 1 (shortLE 5),
     entLE cImageLength dtShort 1 (shortLE 5),
     entLE cBitsPerSample dtShort 1 (shortLE 8),
     entLE cCompression dtShort 1 (shortLE 1),
     entLE cPhotometricInterpr dtShort 1 (shortLE 1),
     entLE cSamplesPerPixel dtShort 1 (shortLE 1),
     entLE cTileWidth dtShort 1 (shortLE 4),
     entLE cTileLength dtShort 1 (shortLE 1),
     entLE cTileOffsets dtLong 10 (u32le 146),
     entLE cTileByteCounts dtLong 10 (u32le 186),
     entLE cSampleFormat dtShort 1 (shortLE 1)]
    (((List.range 10).map fun k => u32le (226 + 4 * k)).flatten
      ++ ((List.range 10).map fun _ => u32le 4).flatten
      ++ ((List.range 10).map fun k =>
            [10 * k + 1, 10 * k + 2, 10 * k + 3, 10 * k + 4]).flatten)

/-- A 4x4 u8 image with TW=4, TH=2: two 4x2 tiles holding bytes 0..7 and
8..15.  Offsets array at 146, byte counts at 154, tile data at 162. -/
def c3file : List Nat :=
  mkFileLE
    [entLE cImageWidth dtShort 1 (shortLE 4),
     entLE cImageLength dtShort 1 (shortLE 4),
     entLE cBitsPerSample dtShort 1 (shortLE 8),
     entLE cCompression dtShort 1 (shortLE 1),
     entLE cPhotometricInterpr dtShort 1 (shortLE 1),
     entLE cSamplesPerPixel dtShort 1 (shortLE 1),
     entLE cTileWidth dtShort 1 (shortLE 4),
     entLE cTileLength dtShort 1 (shortLE 2),
     entLE cTileOffsets dtLong 2 (u32le 146),
     entLE cTileByteCounts dtLong 2 (u32le 154),
     entLE cSampleFormat dtShort 1 (shortLE 1)]
    (u32le 162 ++ u32le 170 ++ u32le 8 ++ u32le 8 ++ List.range 16)

/-- The c1 image declared with compression code 5 (LZW). -/
def c4file : List Nat :=
  mkFileLE
    [entLE cImageWidth dtShort 1 (shortLE 4),
     entLE cImageLength dtShort 1 (shortLE 4),
     entLE cBitsPerSample dtShort 1 (shortLE 8),
     entLE cCompression dtShort 1 (shortLE 5),
     entLE cPhotometricInterpr dtShort 1 (shortLE 1),
     entLE cSamplesPerPixel dtShort 1 (shortLE 1),
     entLE cTileWidth dtShort 1 (shortLE 4),
     entLE cTileLength dtShort 1 (shortLE 4),
     entLE cTileOffsets dtLong 1 (u32le 146),
     entLE cTileByteCounts dtLong 1 (u32le 16),
     entLE cSampleFormat dtShort 1 (shortLE 1)]
    (List.range 16)

/-- The raster 0..15 stored with a Predictor (317) tag of value 1; IFD
has 12 entries so the tile moves to offset 158. -/
def c5predictor1File : List Nat :=
  mkFileLE
    [entLE cImageWidth dtShort 1 (shortLE 4),
     entLE cImageLength dtShort 1 (shortLE 4),
     entLE cBitsPerSample dtShort 1 (shortLE 8),
     entLE cCompression dtShort 1 (shortLE 1),
     entLE cPhotometricInterpr dtShort 1 (shortLE 1),
     entLE cSamplesPerPixel dtShort 1 (shortLE 1),
     entLE 317 dtShort 1 (shortLE 1),
     entLE cTileWidth dtShort 1 (shortLE 4),
     entLE cTileLength dtShort 1 (shortLE 4),
     entLE cTileOffsets dtLong 1 (u32le 158),
     entLE cTileByteCounts dtLong 1 (u32le 16),
     entLE cSampleFormat dtShort 1 (shortLE 1)]
    (List.range 16)

/-- The pre-differenced rows of the same raster for predictor = 2. -/
def c5diffTile : List Nat :=
  [0, 1, 1, 1, 4, 1, 1, 1, 8, 1, 1, 1, 12, 1, 1, 1]

/-- The same raster stored with predictor = 2: rows pre-differenced. -/
def c5predictor2File : List Nat :=
  mkFileLE
    [entLE cImageWidth dtShort 1 (shortLE 4),
     entLE cImageLength dtShort 1 (shortLE 4),
     entLE cBitsPerSample dtShort 1 (shortLE 8),
     entLE cCompression dtShort 1 (shortLE 1),
     entLE cPhotometricInterpr dtShort 1 (shortLE 1),
     entLE cSamplesPerPixel dtShort 1 (shortLE 1),
     entLE 317 dtShort 1 (shortLE 2),
     entLE cTileWidth dtShort 1 (shortLE 4),
     entLE cTileLength dtShort 1 (shortLE 4),
     entLE cTileOffsets dtLong 1 (u32le 158),
     entLE cTileByteCounts dtLong 1 (u32le 16),
     entLE cSampleFormat dtShort 1 (shortLE 1)]
    c5diffTile

/-- A 1x1 16-bit file in big-endian (MM) byte order; the single sample
is 0x0102, stored big-endian in the tile.  TW=TH=2 keeps the inclusive
loop bounds inside the one-entry tile table. -/
def c6beFile : List Nat :=
  mkFileBE
    [entBE cImageWidth dtShort 1 (shortBE 1),
     entBE cImageLength dtShort 1 (shortBE 1),
     entBE cBitsPerSample dtShort 1 (shortBE 16),
     entBE cCompression dtShort 1 (shortBE 1),
     entBE cPhotometricInterpr dtShort 1 (shortBE 1),
     entBE cSamplesPerPixel dtShort 1 (shortBE 1),
     entBE cTileWidth dtShort 1 (shortBE 2),
     entBE cTileLength dtShort 1 (shortBE 2),
     entBE cTileOffsets dtLong 1 (u32be 146),
     entBE cTileByteCounts dtLong 1 (u32be 8),
     entBE cSampleFormat dtShort 1 (shortBE 1)]
    [1, 2, 0, 0, 0, 0, 0, 0]

/-- The little-endian (II) twin of `c6beFile`: identical logical
content, every multi-byte value (including the 16-bit sample 0x0102 in
the tile) stored little-endian. -/
def c6leFile : List Nat :=
  mkFileLE
    [entLE cImageWidth dtShort 1 (shortLE 1),
     entLE cImageLength dtShort 1 (shortLE 1),
     entLE cBitsPerSample dtShort 1 (shortLE 16),
     entLE cCompression dtShort 1 (shortLE 1),
     entLE cPhotometricInterpr dtShort 1 (shortLE 1),
     entLE cSamplesPerPixel dtShort 1 (shortLE 1),
     entLE cTileWidth dtShort 1 (shortLE 2),
     entLE cTileLength dtShort 1 (shortLE 2),
     entLE cTileOffsets dtLong 1 (u32le 146),
     entLE cTileByteCounts dtLong 1 (u32le 8),
     entLE cSampleFormat dtShort 1 (shortLE 1)]
    [2, 1, 0, 0, 0, 0, 0, 0]

/-- The c1 image plus a ModelTransformation (34264) IFD entry
(DOUBLE, count 16, indirect value pointer 0); 12 entries move the tile
to offset 158. -/
def c8file : List Nat :=
  mkFileLE
    [entLE cImageWidth dtShort 1 (shortLE 4),
     entLE cImageLength dtShort 1 (shortLE 4),
     entLE cBitsPerSample dtShort 1 (shortLE 8),
     entLE cCompression dtShort 1 (shortLE 1),
     entLE cPhotometricInterpr dtShort 1 (shortLE 1),
     entLE cSamplesPerPixel dtShort 1 (shortLE 1),
     entLE cTileWidth dtShort 1 (shortLE 4),
     entLE cTileLength dtShort 1 (shortLE 4),
     entLE cTileOffsets dtLong 1 (u32le 158),
     entLE cTileByteCounts dtLong 1 (u32le 16),
     entLE cSampleFormat dtShort 1 (shortLE 1),
     entLE 34264 12 16 (u32le 0)]
    (List.range 16)

/-- The tile cardinality stated by the specification (a reference
definition following the spec's words, for comparison with the code's
`tilePairs`): `(⌊max.x/TW⌋ - ⌊min.x/TW⌋ + 1) * (⌊max.y/TH⌋ - ⌊min.y/TH⌋ + 1)`,
with the TILE HEIGHT as the y-axis divisor. -/
def specTileCount (r : GoRect) (tw th : Int) : Int :=
  (r.maxX.tdiv tw - r.minX.tdiv tw + 1) * (r.maxY.tdiv th - r.minY.tdiv th + 1)

/-- The set of tiles genuinely intersecting a rectangle (a reference
definition following the spec's words): tile (i,j) covers
`[i*TW, i*TW+TW) x [j*TH, j*TH+TH)`. -/
def specIntersectingTiles (r : GoRect) (tw th : Int) (across down : Nat) :
    List (Int × Int) :=
  ((intRangeLt 0 (across : Int)).flatMap fun i =>
    (intRangeLt 0 (down : Int)).map fun j => (i, j)).filter fun ij =>
      !rectEmpty (rectIntersect
        ⟨ij.1 * tw, ij.2 * th, ij.1 * tw + tw, ij.2 * th + th⟩ r)

/-- Whether a pipeline outcome is a FormatError. -/
def isFormatFail : Except Fail GrayImg → Bool
  | .error (.err (.format _)) => true
  | _ => false

/-! Theorems about the claims. -/

/-- Claim C1: a 4x4 uint8 BlackIsZero tiled file with TW = TH = 4,
compression None and one tile of bytes 0..15 should decode to a 4x4
image with pixel (x,y) = 4*y + x.  Evaluating the code on exactly that
file: `Decode` PANICS (the inclusive tile-loop bound `i <= Max.X/TW`
reaches tile column 1 and indexes `TileOffsets[1]` in a one-entry
table) instead of returning the image. -/
theorem C1_boundary_file_panics :
    goDecode noCodec noCodec c1file 6 = .error .panic ∧
    goParse c1file 6 = .ok [c1cfg] := by decide

/-- Claim C2: the sub-image law fails on the code.  On a 5x5 image with
TW = 4, TH = 1 and rect = (0,0,5,3) inside the image, the sub-image
decode leaves pixel (0,1) at 0 (its y tile loop, dividing by TileWidth,
stops at tile row 0), while the full `DecodeLevel` image - hence its
crop to rect - has 21 there. -/
theorem C2_subimage_crop_mismatch :
    pixOf (goDecodeLevelSubImage noCodec noCodec c2file 6 0 (mkGoRect 0 0 5 3)) 0 1
      = some 0 ∧
    pixOf (goDecodeLevel noCodec noCodec c2file 6 0) 0 1 = some 21 := by decide

/-- Claim C3: tile enumeration.  On a 4x4 image with TW = 4, TH = 2 and
rect = (0,0,3,3), the code fetches exactly one tile, (0,0) (its y loop
divides by TileWidth), while two tiles intersect rect and the claim's
cardinality formula (with the TileHeight divisor) also gives 2; pixel
(0,2) of the decoded sub-image stays 0 because tile row 1 is never
fetched. -/
theorem C3_y_divisor_uses_tile_width :
    tilePairs (rectIntersect (mkGoRect 0 0 4 4) (mkGoRect 0 0 3 3)) 4 = [(0, 0)] ∧
    (specIntersectingTiles (mkGoRect 0 0 3 3) 4 2 1 2).length = 2 ∧
    specTileCount (mkGoRect 0 0 3 3) 4 2 = 2 ∧
    pixOf (goDecodeLevelSubImage noCodec noCodec c3file 6 0 (mkGoRect 0 0 3 3)) 0 2
      = some 0 := by decide

/-- Claim C4, counterexample: a file whose compression code is 5 (LZW)
does not decode; the switch in `DecodeLevelSubImage` has no LZW case
and falls to the UnsupportedError default. -/
theorem C4_lzw_file_fails_unsupported :
    goDecodeLevelSubImage noCodec noCodec c4file 6 0 (mkGoRect 0 0 3 3)
      = .error (.err (.unsupported "compression value 5")) := by decide

/-- Claim C5: predictor law.  The live pipeline never parses tag 317
and never reverses the horizontal predictor: the predictor=2 file
(rows pre-differenced) decodes its stored bytes verbatim, so pixel
(2,0) is 1 where the predictor=1 file gives 2.  The repository's own
8-bit predictor reversal (reader.go decode, dead code for the public
pipeline) does reconstruct the predictor=1 tile from the differenced
one. -/
theorem C5_predictor_not_reversed :
    pixOf (goDecodeLevelSubImage noCodec noCodec c5predictor2File 6 0
      (mkGoRect 0 0 3 3)) 2 0 = some 1 ∧
    pixOf (goDecodeLevelSubImage noCodec noCodec c5predictor1File 6 0
      (mkGoRect 0 0 3 3)) 2 0 = some 2 ∧
    horizPredictor8 1 0 4 0 4 c5diffTile = .ok (List.range 16) := by decide

/-- Claim C6: endianness law.  A 1x1 16-bit file authored big-endian
(sample 0x0102 stored as bytes 01 02) and its little-endian twin
(bytes 02 01) decode to DIFFERENT pixels, 258 vs 513: `decode` composes
the two sample bytes big-endian regardless of the file byte order. -/
theorem C6_endianness_16bit_mismatch :
    pixOf (goDecodeLevelSubImage noCodec noCodec c6beFile 6 0 (mkGoRect 0 0 1 1)) 0 0
      = some 258 ∧
    pixOf (goDecodeLevelSubImage noCodec noCodec c6leFile 6 0 (mkGoRect 0 0 1 1)) 0 0
      = some 513 := by decide

/-- Claim C7, counterexample: on a valid file and a rectangle that does
not intersect the image, `DecodeLevelSubImage` fails with the plain
`fmt.Errorf` message, which is NOT a FormatError. -/
theorem C7_nonintersecting_error_is_generic :
    goDecodeLevelSubImage noCodec noCodec c1file 6 0 (mkGoRect 10 10 12 12)
      = .error (.err (.generic "The rectangle provided does not intersect the image")) ∧
    isFormatFail (goDecodeLevelSubImage noCodec noCodec c1file 6 0
      (mkGoRect 10 10 12 12)) = false := by decide

/-- Claim C8: a file declaring ModelTransformation (tag 34264) should
fail with an UnsupportedError, but `parseIFD` has no case for tag 34264
and silently skips it: the file decodes to an ordinary image. -/
theorem C8_modeltransformation_silently_accepted :
    goDecodeLevelSubImage noCodec noCodec c8file 6 0 (mkGoRect 0 0 3 3)
      = .ok ⟨.u8, 0, 0, 3, 3, 0, 255, [0, 1, 2, 4, 5, 6, 8, 9, 10]⟩ := by decide

/-- Claim C9, counterexample: the GeoKey interpreter accepts the
unknown ModelType code 9999 (neither a known code nor 32767), storing
it verbatim and returning a nil error instead of failing with
FormatError. -/
theorem C9_unknown_code_accepted :
    extract {} ⟨1024, 0, 1, 9999⟩ [] "" = some ({ ModelType := 9999 }, none) := by
  rfl

/-- Claim C9 as amended: for every enumerated GeoKey entry (ids 1024,
1025, 2048, 2050, 2054, 2056, 3072, 3074, 3075, 3076) the interpreter
stores the numeric code verbatim in the corresponding GeoCode field -
whatever the code, 32767 and unknown codes included - and returns a nil
error; no code is mapped or rejected. -/
theorem C9_enumerated_codes_stored_verbatim (g : GeoCode) (k : KeyEntry)
    (dParams : List Float) (aParams : String)
    (h : k.KeyID = 1024 ∨ k.KeyID = 1025 ∨ k.KeyID = 2048 ∨ k.KeyID = 2050
      ∨ k.KeyID = 2054 ∨ k.KeyID = 2056 ∨ k.KeyID = 3072 ∨ k.KeyID = 3074
      ∨ k.KeyID = 3075 ∨ k.KeyID = 3076) :
    extract g k dParams aParams = some (storeEnum g k.KeyID k.ValueOffset, none) := by
  obtain ⟨kid, loc, cnt, vo⟩ := k
  simp only at h
  rcases h with h | h | h | h | h | h | h | h | h | h <;> subst h <;> rfl

/-- Witness for C9: the GeographicType key (2048) with code 4326 is
stored verbatim. -/
theorem C9_enumerated_codes_stored_verbatim_witness :
    ((2048 : Nat) = 1024 ∨ (2048 : Nat) = 1025 ∨ (2048 : Nat) = 2048
      ∨ (2048 : Nat) = 2050 ∨ (2048 : Nat) = 2054 ∨ (2048 : Nat) = 2056
      ∨ (2048 : Nat) = 3072 ∨ (2048 : Nat) = 3074 ∨ (2048 : Nat) = 3075
      ∨ (2048 : Nat) = 3076) ∧
    extract {} ⟨2048, 0, 1, 4326⟩ [] "" = some (storeEnum {} 2048 4326, none) :=
  ⟨by decide,
   C9_enumerated_codes_stored_verbatim {} ⟨2048, 0, 1, 4326⟩ [] "" (by decide)⟩

/-- Claim C10: DecodeLevel, DecodeLevelSubImage and DecodeConfigLevel
index the parsed level list without a bounds check: whenever the file
parses to `dsc` and the requested level is outside [0, dsc.length), all
three operations panic with an out-of-range index rather than
returning a FormatError or UnsupportedError. -/
theorem C10_level_out_of_range_panics (zlibDec packBitsDec : Codec)
    (file : List Nat) (fuel : Nat) (dsc : List ImgDesc) (level : Int)
    (rect : GoRect)
    (hp : goParse file fuel = .ok dsc)
    (hl : level < 0 ∨ (dsc.length : Int) ≤ level) :
    goDecodeLevelSubImage zlibDec packBitsDec file fuel level rect = .error .panic ∧
    goDecodeLevel zlibDec packBitsDec file fuel level = .error .panic ∧
    goDecodeConfigLevel file fuel level = .error .panic := by
  have hnone : getLevel dsc level = none := by
    unfold getLevel
    rw [dif_neg]
    rintro ⟨h0, h1⟩
    rcases hl with h | h <;> omega
  refine ⟨?_, ?_, ?_⟩ <;>
    simp only [goDecodeLevelSubImage, goDecodeLevel, goDecodeConfigLevel,
      hp, hnone]

/-- Witness for C10: level 5 of the one-level c1 file panics in all
three operations. -/
theorem C10_level_out_of_range_panics_witness :
    goDecodeLevelSubImage noCodec noCodec c1file 6 5 (mkGoRect 0 0 4 4)
      = .error .panic ∧
    goDecodeLevel noCodec noCodec c1file 6 5 = .error .panic ∧
    goDecodeConfigLevel c1file 6 5 = .error .panic :=
  C10_level_out_of_range_panics noCodec noCodec c1file 6 [c1cfg] 5
    (mkGoRect 0 0 4 4) (by decide) (by decide)

/-- Claim C7 as amended: for every valid file and requested rectangle
that does not intersect the chosen level's image rectangle (and passes
the checks that precede the intersection test), DecodeLevelSubImage
fails - but with the plain fmt.Errorf error "The rectangle provided
does not intersect the image", not with a FormatError. -/
theorem C7_nonintersecting_rect_generic_error (zlibDec packBitsDec : Codec)
    (file : List Nat) (fuel : Nat) (dsc : List ImgDesc) (level : Int)
    (cfg : ImgDesc) (rect : GoRect)
    (hp : goParse file fuel = .ok dsc)
    (hl : getLevel dsc level = some cfg)
    (hdim : ¬(cfg.ImageWidth = 0 ∨ cfg.ImageHeight = 0))
    (hcnt : ¬(cfg.TileOffsets.length < blocksAcrossOf cfg * blocksDownOf cfg
      ∨ cfg.TileByteCounts.length < blocksAcrossOf cfg * blocksDownOf cfg))
    (hbne : ¬cfg.BitsPerSample = [])
    (hbps : cfg.BitsPerSample.headD 0 = 8 ∨ cfg.BitsPerSample.headD 0 = 16)
    (hempty : rectEmpty (rectIntersect
      (mkGoRect 0 0 (cfg.ImageWidth : Int) (cfg.ImageHeight : Int)) rect) = true) :
    goDecodeLevelSubImage zlibDec packBitsDec file fuel level rect
      = .error (.err (.generic "The rectangle provided does not intersect the image")) := by
  have hb0 : ¬cfg.BitsPerSample.headD 0 = 0 := by
    rcases hbps with h | h <;> omega
  simp only [goDecodeLevelSubImage, hp, hl]
  unfold decodeWithCfg
  rw [if_neg hdim, if_neg hcnt, if_neg hbne, if_neg hb0, if_pos hbps,
    if_pos hempty]

/-- Witness for C7: the c1 file with rect (10,10,12,12). -/
theorem C7_nonintersecting_rect_generic_error_witness :
    goDecodeLevelSubImage noCodec noCodec c1file 6 0 (mkGoRect 10 10 12 12)
      = .error (.err (.generic "The rectangle provided does not intersect the image")) :=
  C7_nonintersecting_rect_generic_error noCodec noCodec c1file 6 [c1cfg] 0
    c1cfg (mkGoRect 10 10 12 12) (by decide) (by decide) (by decide)
    (by decide) (by decide) (by decide) (by decide)

/-- `decode` reads only the SamplesPerPixel field of the descriptor. -/
theorem decode_congr (cfgA cfgB : ImgDesc)
    (hSPP : cfgB.SamplesPerPixel = cfgA.SamplesPerPixel) :
    decode cfgB = decode cfgA := by
  funext buf dst xmin ymin xmax ymax
  simp only [decode, hSPP]

/-- `colorModel` reads only photometric interpretation, sample format
and bits per sample. -/
theorem colorModel_congr (cfgA cfgB : ImgDesc)
    (hPh : cfgB.PhotometricInterpr = cfgA.PhotometricInterpr)
    (hBPS : cfgB.BitsPerSample = cfgA.BitsPerSample)
    (hSF : cfgB.SampleFormat = cfgA.SampleFormat) :
    colorModel cfgB = colorModel cfgA := by
  simp only [colorModel, hPh, hBPS, hSF]

/-- One tile iteration is insensitive to the compression code and the
tile tables as long as the table lengths agree and the fetched
(decompressed) buffers agree tile by tile. -/
theorem tileStep_congr (file file2 : List Nat) (zl pb zl2 pb2 : Codec)
    (cfgA cfgB : ImgDesc) (bp : Bool) (A D : Nat) (ij : Int × Int)
    (img : GrayImg)
    (hW : cfgB.ImageWidth = cfgA.ImageWidth)
    (hH : cfgB.ImageHeight = cfgA.ImageHeight)
    (hTW : cfgB.TileWidth = cfgA.TileWidth)
    (hTH : cfgB.TileHeight = cfgA.TileHeight)
    (hSPP : cfgB.SamplesPerPixel = cfgA.SamplesPerPixel)
    (hlo : cfgB.TileOffsets.length = cfgA.TileOffsets.length)
    (hlc : cfgB.TileByteCounts.length = cfgA.TileByteCounts.length)
    (hbuf : ∀ idx : Nat, idx < cfgA.TileOffsets.length →
      idx < cfgA.TileByteCounts.length →
      fetchTileBuf file zl pb cfgA.Compression (cfgA.TileOffsets.getD idx 0)
          (cfgA.TileByteCounts.getD idx 0)
        = fetchTileBuf file2 zl2 pb2 cfgB.Compression (cfgB.TileOffsets.getD idx 0)
          (cfgB.TileByteCounts.getD idx 0)) :
    tileStep file zl pb cfgA bp A D ij img
      = tileStep file2 zl2 pb2 cfgB bp A D ij img := by
  obtain ⟨i, j⟩ := ij
  simp only [tileStep, hW, hH, hTW, hTH, hlo, hlc,
    decode_congr cfgA cfgB hSPP]
  by_cases h1 : (j * (A : Int) + i < 0
      ∨ (cfgA.TileOffsets.length : Int) ≤ j * (A : Int) + i)
  · rw [if_pos h1, if_pos h1]
  · rw [if_neg h1, if_neg h1]
    by_cases h2 : ((cfgA.TileByteCounts.length : Int) ≤ j * (A : Int) + i)
    · rw [if_pos h2, if_pos h2]
    · rw [if_neg h2, if_neg h2]
      push_neg at h1 h2
      rw [← hbuf (j * (A : Int) + i).toNat (by omega) (by omega)]

/-- The whole tile loop under the same buffer-by-buffer agreement. -/
theorem tilesRun_congr (file file2 : List Nat) (zl pb zl2 pb2 : Codec)
    (cfgA cfgB : ImgDesc) (bp : Bool) (A D : Nat)
    (hW : cfgB.ImageWidth = cfgA.ImageWidth)
    (hH : cfgB.ImageHeight = cfgA.ImageHeight)
    (hTW : cfgB.TileWidth = cfgA.TileWidth)
    (hTH : cfgB.TileHeight = cfgA.TileHeight)
    (hSPP : cfgB.SamplesPerPixel = cfgA.SamplesPerPixel)
    (hlo : cfgB.TileOffsets.length = cfgA.TileOffsets.length)
    (hlc : cfgB.TileByteCounts.length = cfgA.TileByteCounts.length)
    (hbuf : ∀ idx : Nat, idx < cfgA.TileOffsets.length →
      idx < cfgA.TileByteCounts.length →
      fetchTileBuf file zl pb cfgA.Compression (cfgA.TileOffsets.getD idx 0)
          (cfgA.TileByteCounts.getD idx 0)
        = fetchTileBuf file2 zl2 pb2 cfgB.Compression (cfgB.TileOffsets.getD idx 0)
          (cfgB.TileByteCounts.getD idx 0)) :
    ∀ (ps : List (Int × Int)) (img : GrayImg),
      tilesRun file zl pb cfgA bp A D ps img
        = tilesRun file2 zl2 pb2 cfgB bp A D ps img := by
  intro ps
  induction ps with
  | nil => intro img; rfl
  | cons p ps ih =>
    intro img
    simp only [tilesRun]
    rw [tileStep_congr file file2 zl pb zl2 pb2 cfgA cfgB bp A D p img
      hW hH hTW hTH hSPP hlo hlc hbuf]
    cases tileStep file2 zl2 pb2 cfgB bp A D p img with
    | error e => rfl
    | ok img' => exact ih img'

/-- Claim C4 as amended: for the compression codes the switch actually
recognises - None (1 and the tolerated 0), Deflate (8, 32946) and
PackBits (32773), but NOT LZW (5), which falls to the UnsupportedError
default - decoding yields the same pixels as decoding the image stored
uncompressed, whenever each stored tile decompresses (by the
collaborator codec) to the raw tile bytes of the uncompressed file.
`cfgA` describes the compressed file, `cfgB` the uncompressed one; they
agree on everything except the compression code and tile tables. -/
theorem C4_supported_compression_equivalence (file file2 : List Nat)
    (zl pb zl2 pb2 : Codec) (cfgA cfgB : ImgDesc) (rect : GoRect)
    (_hcA : cfgA.Compression = 0 ∨ cfgA.Compression = 1 ∨ cfgA.Compression = 8
      ∨ cfgA.Compression = 32946 ∨ cfgA.Compression = 32773)
    (_hcB : cfgB.Compression = 1)
    (hW : cfgB.ImageWidth = cfgA.ImageWidth)
    (hH : cfgB.ImageHeight = cfgA.ImageHeight)
    (hTW : cfgB.TileWidth = cfgA.TileWidth)
    (hTH : cfgB.TileHeight = cfgA.TileHeight)
    (hPh : cfgB.PhotometricInterpr = cfgA.PhotometricInterpr)
    (hSPP : cfgB.SamplesPerPixel = cfgA.SamplesPerPixel)
    (hBPS : cfgB.BitsPerSample = cfgA.BitsPerSample)
    (hSF : cfgB.SampleFormat = cfgA.SampleFormat)
    (hlo : cfgB.TileOffsets.length = cfgA.TileOffsets.length)
    (hlc : cfgB.TileByteCounts.length = cfgA.TileByteCounts.length)
    (hbuf : ∀ idx : Nat, idx < cfgA.TileOffsets.length →
      idx < cfgA.TileByteCounts.length →
      fetchTileBuf file zl pb cfgA.Compression (cfgA.TileOffsets.getD idx 0)
          (cfgA.TileByteCounts.getD idx 0)
        = fetchTileBuf file2 zl2 pb2 cfgB.Compression (cfgB.TileOffsets.getD idx 0)
          (cfgB.TileByteCounts.getD idx 0)) :
    decodeWithCfg file zl pb cfgA rect = decodeWithCfg file2 zl2 pb2 cfgB rect := by
  have hA : blocksAcrossOf cfgB = blocksAcrossOf cfgA := by
    simp only [blocksAcrossOf, hW, hTW]
  have hD : blocksDownOf cfgB = blocksDownOf cfgA := by
    simp only [blocksDownOf, hH, hTW, hTH]
  have hcm : colorModel cfgB = colorModel cfgA :=
    colorModel_congr cfgA cfgB hPh hBPS hSF
  simp only [decodeWithCfg, hW, hH, hTW, hBPS, hA, hD, hlo, hlc, hcm]
  split_ifs with g1 g2 g3 g4 g5 <;> try rfl
  cases hm : colorModel cfgA with
  | error f => rfl
  | ok m =>
    cases m with
    | none => rfl
    | some v =>
      obtain ⟨k, lo, hi⟩ := v
      exact tilesRun_congr file file2 zl pb zl2 pb2 cfgA cfgB _ _ _
        hW hH hTW hTH hSPP hlo hlc hbuf _ _

/-- Witness for C4: the c1 image stored with the tolerated compression
code 0 decodes like the same image stored with code 1 (None). -/
theorem C4_supported_compression_equivalence_witness :
    decodeWithCfg c1file noCodec noCodec { c1cfg with Compression := 0 }
      (mkGoRect 0 0 3 3)
      = decodeWithCfg c1file noCodec noCodec c1cfg (mkGoRect 0 0 3 3) :=
  C4_supported_compression_equivalence c1file c1file noCodec noCodec
    noCodec noCodec { c1cfg with Compression := 0 } c1cfg (mkGoRect 0 0 3 3)
    (by decide) (by decide) (by decide) (by decide) (by decide) (by decide)
    (by decide) (by decide) (by decide) (by decide) (by decide) (by decide)
    (fun idx h1 _ => by
      have h0 := Nat.lt_one_iff.mp h1
      subst h0
      rfl)

end Gocog
